import Mathlib

/-!
Verification of the authentication/session core of the `fastapi-starter`
repository against its specification.

The Python source is shallowly embedded: timestamps are UTC instants in
whole seconds (`Int`), repositories are association lists, randomness
(`secrets.token_urlsafe`) and the current clock are passed as explicit
parameters, and exceptions become `Except`-style results paired with the
(unchanged, on the error path) store.
-/

namespace AuthCore

/-- UTC instants measured in whole seconds (`datetime.timestamp()` values). -/
abbrev Timestamp := Int

/-! ## JWT layer: `src/authentication/services/session.py` and `python-jose`

`SessionService.generate_jwt_token` builds a `JWTPayload` and signs it with
`jose.jwt.encode(payload, secret, algorithm="HS256")`;
`SessionService.verify_jwt_token` calls `jose.jwt.decode` and then
`JWTPayload.model_validate`, catching only `JWTError`. -/

/-- `JWTPayload` from `src/authentication/schemas/auth.py`: all four claims
are required fields. -/
structure JWTPayload where
  sub : String
  exp : Int
  iat : Int
  type : String
deriving DecidableEq, Repr

/-- The claim set carried by an HS256 JWS body as `jose.jwt.decode` sees it:
each of the four claims the application ever reads may be present or absent.
(Claims the application never reads are irrelevant to every theorem below and
are omitted from the embedding.) -/
structure JoseClaims where
  sub : Option String
  exp : Option Int
  iat : Option Int
  type : Option String
deriving DecidableEq, Repr

/-- Injective serialisation of an optional string claim. -/
def encodeOptStr : Option String → List Int
  | none => [0]
  | some s => 1 :: (s.toList.map (fun ch => (ch.toNat : Int))) ++ [-1]

/-- Injective serialisation of an optional integer claim. -/
def encodeOptInt : Option Int → List Int
  | none => [0]
  | some n => [1, n]

/-- Serialisation of a claim set (the signing input of the JWS). -/
def encodeClaims (c : JoseClaims) : List Int :=
  encodeOptStr c.sub ++ encodeOptInt c.exp ++ encodeOptInt c.iat ++ encodeOptStr c.type

/-- The HS256 MAC, modelled as an ideal deterministic keyed tag: a tag
verifies exactly when it was produced over the same claims with the same
secret, which is the functional behaviour `jose.jws.verify` relies on. -/
def macSign (secret : Nat) (c : JoseClaims) : List Int :=
  (secret : Int) :: encodeClaims c

/-- An input to `jose.jwt.decode`: either a string that does not parse as a
JWS at all, or a well-formed token carrying a claim set and a tag. -/
inductive JoseToken where
  | malformed (raw : String)
  | signed (claims : JoseClaims) (sig : List Int)
deriving DecidableEq, Repr

/-- The `jose.exceptions.JWTError` subclasses raised on the paths the
application exercises. -/
inductive JoseError where
  | malformedToken
  | signatureMismatch
  | expiredSignature
deriving DecidableEq, Repr

/-- `jose.jwt.decode(token, secret, algorithms=["HS256"])` with default
options: verify the signature first, then validate the `exp` claim when it is
present, raising `ExpiredSignatureError` iff `exp < now` (leeway 0). -/
def joseDecode (secret : Nat) (now : Timestamp) : JoseToken → Except JoseError JoseClaims
  | .malformed _ => .error .malformedToken
  | .signed c sig =>
    if sig = macSign secret c then
      match c.exp with
      | some e => if e < now then .error .expiredSignature else .ok c
      | none => .ok c
    else .error .signatureMismatch

/-- A `pydantic.ValidationError`, which is NOT a `jose.JWTError`. -/
inductive PydanticError where
  | missingField (field : String)
deriving DecidableEq, Repr

/-- `JWTPayload.model_validate(payload)`: succeeds exactly when all four
required fields are present (extra claims are ignored by the model config). -/
def jwtPayloadModelValidate (c : JoseClaims) : Except PydanticError JWTPayload :=
  match c.sub, c.exp, c.iat, c.type with
  | some s, some e, some i, some t => .ok ⟨s, e, i, t⟩
  | none, _, _, _ => .error (.missingField "sub")
  | some _, none, _, _ => .error (.missingField "exp")
  | some _, some _, none, _ => .error (.missingField "iat")
  | some _, some _, some _, none => .error (.missingField "type")

/-- `SessionService.generate_jwt_token(user_id, expires_in_minutes)` with
`additional_claims=None` (the only way the application calls it):
`exp = now + expires_in_minutes` minutes, `iat = now`, `type = "access"`. -/
def generate_jwt_token (secret : Nat) (now : Timestamp) (user_id : String)
    (expires_in_minutes : Int) : JoseToken :=
  let expire := now + expires_in_minutes * 60
  let payload : JoseClaims :=
    { sub := some user_id, iat := some now, exp := some expire, type := some "access" }
  .signed payload (macSign secret payload)

/-- Outcome of `SessionService.verify_jwt_token`: a validated payload, the
`None` return from the `except JWTError` handler, or an exception that
escapes to the caller. -/
inductive VerifyResult where
  | payload (p : JWTPayload)
  | invalid
  | uncaught (e : PydanticError)
deriving DecidableEq, Repr

/-- `SessionService.verify_jwt_token(token)`: decode, then
`JWTPayload.model_validate`; only `JWTError` is caught. -/
def verify_jwt_token (secret : Nat) (now : Timestamp) (token : JoseToken) : VerifyResult :=
  match joseDecode secret now token with
  | .error _ => .invalid
  | .ok claims =>
    match jwtPayloadModelValidate claims with
    | .ok p => .payload p
    | .error e => .uncaught e

/-! ## Errors: `src/authentication/core/exceptions.py`

Every application exception derives from `AppException`; the message string
is kept because the controllers distinguish paths by it. -/

/-- The exception classes raised on the embedded paths. -/
inductive AppError where
  | appException (msg : String)
  | authenticationError (msg : String)
  | validationError (msg : String)
  | databaseError (msg : String)
deriving DecidableEq, Repr

/-! ## Data model: `src/authentication/models/` -/

/-- `Session` from `src/authentication/models/session.py`. Primary keys and
user ids are embedded as `Nat`. -/
structure Session where
  id : Nat
  user_id : Nat
  token : String
  expires_at : Timestamp
  ip_address : Option String
  user_agent : Option String
deriving DecidableEq, Repr

/-- `Session.is_expired`: `datetime.datetime.utcnow() > self.expires_at`. -/
def Session.is_expired (s : Session) (now : Timestamp) : Bool :=
  decide (s.expires_at < now)

/-- `User` from `src/authentication/models/user.py` (the fields the auth
flows read). -/
structure User where
  id : Nat
  email : String
  email_verified : Bool
deriving DecidableEq, Repr

/-- `Verification` from `src/authentication/models/verification.py`. -/
structure Verification where
  id : Nat
  user_id : Nat
  identifier : String
  value : String
  expires_at : Timestamp
deriving DecidableEq, Repr

/-- `Verification.is_expired`: `arrow.utcnow().datetime > self.expires_at`. -/
def Verification.is_expired (v : Verification) (now : Timestamp) : Bool :=
  decide (v.expires_at < now)

/-- Modelled from the spec: the credential `Account` row of the Credential
Store (§4.1, §3), whose model/service modules are not under `src/`: one per
(user, provider) pair, storing a salted password hash; looked up by email. -/
structure Account where
  id : Nat
  user_id : Nat
  email : String
  password_hash : String
deriving DecidableEq, Repr

/-- Modelled from the spec: the Credential Store's password hash (§4.1
"hashes and persists"); an injective executable stand-in for the salted hash,
compared for equality on verification. -/
def hashPassword (password : String) : String :=
  "hashed:" ++ password

/-- The persistent state the embedded flows touch, each table an association
list, plus the outbox of `EmailService.send_email` calls
(recipient, subject). -/
structure AuthState where
  users : List User
  accounts : List Account
  sessions : List Session
  verifications : List Verification
  sent_emails : List (String × String)
deriving DecidableEq, Repr

/-! ## Session service: `src/authentication/services/session.py`

`Repository.get_first(**filters)` is `List.find?`; `Repository.delete(id)`
removes the row with that primary key; `Repository.update(id, **updates)`
rewrites the row in place. -/

/-- `Repository[Session].get_first(token=token)`. -/
def sessionsFindByToken (store : List Session) (token : String) : Option Session :=
  store.find? (fun s => decide (s.token = token))

/-- `Repository[Session].get(id)` / the lookup inside `get_or_raise`. -/
def sessionsGet (store : List Session) (id : Nat) : Option Session :=
  store.find? (fun s => decide (s.id = id))

/-- `Repository[Session].delete(id)` once `get_or_raise` has succeeded:
remove the row with primary key `id`. -/
def sessionsDelete (store : List Session) (id : Nat) : List Session :=
  store.filter (fun s => decide (s.id ≠ id))

/-- `Repository[Session].update(id, expires_at=e)` once `get_or_raise` has
succeeded: rewrite the `expires_at` column of the row with that key. -/
def sessionsUpdateExpiry (store : List Session) (id : Nat) (e : Timestamp) :
    List Session :=
  store.map (fun s => if s.id = id then { s with expires_at := e } else s)

/-- `SessionService.get_session_by_token(token)`: `get_first(token=token)`;
`None` if absent; if found but `is_expired`, delete it and return `None`;
otherwise return it. The returned list is the session table afterwards. -/
def get_session_by_token (now : Timestamp) (store : List Session) (token : String) :
    Option Session × List Session :=
  match sessionsFindByToken store token with
  | none => (none, store)
  | some s =>
    if s.is_expired now then (none, sessionsDelete store s.id)
    else (some s, store)

/-- `SessionService.create_session(user_id, ip, ua, expires_in_days)`: fresh
token and row id come from `secrets` / the database and are passed in;
`expires_at = now + expires_in_days` days. -/
def create_session (now : Timestamp) (store : List Session) (user_id : Nat)
    (ip_address user_agent : Option String) (expires_in_days : Int)
    (fresh_id : Nat) (fresh_token : String) : Session × List Session :=
  let s : Session :=
    { id := fresh_id, user_id := user_id, token := fresh_token,
      expires_at := now + expires_in_days * 86400,
      ip_address := ip_address, user_agent := user_agent }
  (s, store ++ [s])

/-- `SessionService.refresh_session(session_id, expires_in_days)`:
`get_or_raise`, raise `AppException` if `expires_at < now`, else update
`expires_at` to `now + expires_in_days` days. The second component is the
session table afterwards (unchanged whenever an exception is raised). -/
def refresh_session (now : Timestamp) (store : List Session) (session_id : Nat)
    (expires_in_days : Int) : Except AppError Session × List Session :=
  match sessionsGet store session_id with
  | none => (.error (.databaseError "Session not found"), store)
  | some s =>
    if s.expires_at < now then
      (.error (.appException "Cannot refresh an expired session"), store)
    else
      let e := now + expires_in_days * 86400
      (.ok { s with expires_at := e }, sessionsUpdateExpiry store session_id e)

/-! ## Auth controller: `src/authentication/controllers/auth.py`

The controller's repository calls become `List.find?` / `List.map` /
`List.filter` over `AuthState`; `EmailService.render_template` +
`send_email` append to the outbox. `AccountService` is not under `src/`
(only `services/email.py` and `services/session.py` exist), so its three
operations used here are modelled from spec §4.1. -/

/-- `Repository[Verification].get_first(value=v, identifier=i)`. -/
def verificationsFind (st : AuthState) (value identifier : String) : Option Verification :=
  st.verifications.find? (fun v => decide (v.value = value ∧ v.identifier = identifier))

/-- `Repository[User].get(id)` / the lookup inside `get_or_raise`. -/
def usersGet (st : AuthState) (id : Nat) : Option User :=
  st.users.find? (fun u => decide (u.id = id))

/-- Modelled from the spec: `AccountService.get_account_by_email(email)`
(§4.1 "Looks up the credential account by email"); the service module is
absent from `src/`. -/
def get_account_by_email (st : AuthState) (email : String) : Option Account :=
  st.accounts.find? (fun a => decide (a.email = email))

/-- Modelled from the spec: `AccountService.verify_credential(email,
password)` (§4.1 `verify(email, password) -> Account | None`): look up the
account by email and return it only if the supplied password matches the
stored hash; the service module is absent from `src/`. -/
def verify_credential (st : AuthState) (email password : String) : Option Account :=
  match get_account_by_email st email with
  | none => none
  | some a => if a.password_hash = hashPassword password then some a else none

/-- Modelled from the spec: `AccountService.update_password` (§4.1
"re-hashes and overwrites"); the service module is absent from `src/`. -/
def update_account_password (accounts : List Account) (account_id : Nat)
    (new_password : String) : List Account :=
  accounts.map (fun a =>
    if a.id = account_id then { a with password_hash := hashPassword new_password } else a)

/-- Result of a successful `AuthController.verify_email`. -/
inductive VerifyEmailOutcome where
  | alreadyVerified
  | verified (user_id : Nat) (email : String)
  | redirect (url : String)
deriving DecidableEq, Repr

/-- `AuthController.verify_email(data)`: look up the token among
`email_verification` rows; `ValidationError` if absent or expired; if the
user is already verified, return success without touching the state;
otherwise set `email_verified`, delete the token, send the confirmation
email. The second component is the state afterwards. -/
def verify_email (now : Timestamp) (st : AuthState) (token : String)
    (callback_url : Option String) : Except AppError VerifyEmailOutcome × AuthState :=
  match verificationsFind st token "email_verification" with
  | none => (.error (.validationError "Invalid or expired verification token"), st)
  | some v =>
    if v.is_expired now then
      (.error (.validationError "Verification token has expired"), st)
    else
      match usersGet st v.user_id with
      | none => (.error (.databaseError "User not found"), st)
      | some u =>
        if u.email_verified then
          match callback_url with
          | some url => (.ok (.redirect url), st)
          | none => (.ok .alreadyVerified, st)
        else
          let st' : AuthState :=
            { st with
              users := st.users.map (fun x =>
                if x.id = u.id then { x with email_verified := true } else x),
              verifications := st.verifications.filter (fun x => decide (x.id ≠ v.id)),
              sent_emails := st.sent_emails ++ [(u.email, "Email verified successfully")] }
          match callback_url with
          | some url => (.ok (.redirect url), st')
          | none => (.ok (.verified u.id u.email), st')

/-- `AuthController.reset_password(data)`: look up the token among
`password_reset` rows; `ValidationError` if absent or expired; `get_or_raise`
the user; `ValidationError` if no credential account exists for the user's
email; otherwise update the password, delete the token, send the
confirmation email. -/
def reset_password (now : Timestamp) (st : AuthState) (token new_password : String) :
    Except AppError Unit × AuthState :=
  match verificationsFind st token "password_reset" with
  | none => (.error (.validationError "Invalid or expired password reset token"), st)
  | some v =>
    if v.is_expired now then
      (.error (.validationError "Password reset token has expired"), st)
    else
      match usersGet st v.user_id with
      | none => (.error (.databaseError "User not found"), st)
      | some u =>
        match get_account_by_email st u.email with
        | none => (.error (.validationError "Password not set for this account"), st)
        | some a =>
          let st' : AuthState :=
            { st with
              accounts := update_account_password st.accounts a.id new_password,
              verifications := st.verifications.filter (fun x => decide (x.id ≠ v.id)),
              sent_emails := st.sent_emails ++ [(u.email, "Password reset successful")] }
          (.ok (), st')

/-- Result of a successful `AuthController.login`. -/
structure LoginResult where
  user : User
  session : Session
  access_token : JoseToken
deriving DecidableEq, Repr

/-- `AuthController.login(data, request, response)`:
`AccountService.verify_credential`; `AuthenticationError` if it fails;
otherwise `get_or_raise` the user, create a 30-day session and a 7-day JWT
(`_create_session_and_token`). Fresh session id and token come from the
database / `secrets` and are passed in. -/
def login (secret : Nat) (now : Timestamp) (st : AuthState) (email password : String)
    (ip_address user_agent : Option String) (fresh_id : Nat) (fresh_token : String) :
    Except AppError LoginResult × AuthState :=
  match verify_credential st email password with
  | none => (.error (.authenticationError "Invalid email or password"), st)
  | some account =>
    match usersGet st account.user_id with
    | none => (.error (.databaseError "User not found"), st)
    | some user =>
      let created := create_session now st.sessions user.id ip_address user_agent 30
        fresh_id fresh_token
      let jwt := generate_jwt_token secret now (toString user.id) (60 * 24 * 7)
      (.ok { user := user, session := created.1, access_token := jwt },
       { st with sessions := created.2 })

/-- Python truthiness of an `int | None` argument: `if x:` is taken exactly
when the value is present and nonzero. -/
def pyTruthy (o : Option Int) : Bool :=
  o.getD 0 ≠ 0

/-- `AuthController._create_verification_token(user_id, identifier,
expires_hours, expires_minutes)`: start from `arrow.utcnow()`; `if
expires_hours:` shift by hours; `elif expires_minutes:` shift by minutes;
the token value comes from `secrets.token_urlsafe(32)` and the row id from
the database, both passed in. -/
def create_verification_token (now : Timestamp) (user_id : Nat) (identifier : String)
    (fresh_id : Nat) (fresh_value : String)
    (expires_hours expires_minutes : Option Int) : Verification :=
  let expires_at : Timestamp :=
    if pyTruthy expires_hours then now + (expires_hours.getD 0) * 3600
    else if pyTruthy expires_minutes then now + (expires_minutes.getD 0) * 60
    else now
  { id := fresh_id, user_id := user_id, identifier := identifier,
    value := fresh_value, expires_at := expires_at }

/-! ## Theorems -/

/-- A repository `get_first` returns the unique matching row: if `a` is in
the table, matches, and is the only match, `find?` returns it. -/
theorem find?_eq_some_of_mem_unique {α : Type _} {p : α → Bool} {a : α} :
    ∀ l : List α, a ∈ l → p a = true → (∀ b ∈ l, p b = true → b = a) →
      l.find? p = some a := by
  intro l
  induction l with
  | nil => intro h _ _; cases h
  | cons x xs ih =>
    intro hmem hpa huniq
    by_cases hx : p x = true
    · have hxa : x = a := huniq x (List.mem_cons_self x xs) hx
      rw [List.find?_cons_of_pos _ hx, hxa]
    · have hmem' : a ∈ xs := by
        rcases List.mem_cons.mp hmem with h | h
        · exact absurd (h ▸ hpa) hx
        · exact h
      rw [List.find?_cons_of_neg _ (by simpa using hx)]
      exact ih hmem' hpa (fun b hb hpb => huniq b (List.mem_cons_of_mem _ hb) hpb)

/-- Claim C1, boundary counterexample: a token generated at time 0 with a
1-minute TTL expires at 60, yet verifying it exactly at time 60 still
returns the payload (`jose` rejects only when `exp < now`), so "verifying at
any time at-or-after expiry does not return a valid payload" is false as
stated. -/
theorem C1_boundary_counterexample :
    verify_jwt_token 0 60 (generate_jwt_token 0 0 "42" 1) =
      .payload ⟨"42", 60, 0, "access"⟩ := by
  rfl

/-- Decoding a freshly generated token: the signature always verifies, and
the result is the full claim set unless `exp < now`. -/
theorem joseDecode_generate (secret : Nat) (now t : Timestamp) (uid : String)
    (minutes : Int) :
    joseDecode secret t (generate_jwt_token secret now uid minutes) =
      if now + minutes * 60 < t then .error .expiredSignature
      else .ok { sub := some uid, exp := some (now + minutes * 60),
                 iat := some now, type := some "access" } := by
  simp [generate_jwt_token, joseDecode]

/-- Claim C1 (amended): `generate_jwt_token` then `verify_jwt_token` at any
time at-or-before the expiry instant `now + minutes·60` recovers the payload
whose subject is the original user id; at any time strictly after the expiry
instant verification returns the invalid result. -/
theorem C1_jwt_roundtrip (secret : Nat) (now t : Timestamp) (uid : String)
    (minutes : Int) :
    (t ≤ now + minutes * 60 →
      verify_jwt_token secret t (generate_jwt_token secret now uid minutes) =
        .payload ⟨uid, now + minutes * 60, now, "access"⟩) ∧
    (now + minutes * 60 < t →
      verify_jwt_token secret t (generate_jwt_token secret now uid minutes) =
        .invalid) := by
  constructor
  · intro ht
    rw [verify_jwt_token, joseDecode_generate, if_neg (not_lt.mpr ht)]
    rfl
  · intro ht
    rw [verify_jwt_token, joseDecode_generate, if_pos ht]

/-- Claim C1 witness: at secret 5, issue time 0, TTL 1 minute, verification
at time 59 recovers subject "7" and verification at time 61 is invalid. -/
theorem C1_jwt_roundtrip_witness :
    verify_jwt_token 5 59 (generate_jwt_token 5 0 "7" 1) =
      .payload ⟨"7", 60, 0, "access"⟩ ∧
    verify_jwt_token 5 61 (generate_jwt_token 5 0 "7" 1) = .invalid :=
  ⟨(C1_jwt_roundtrip 5 0 59 "7" 1).1 (by decide),
   (C1_jwt_roundtrip 5 0 61 "7" 1).2 (by decide)⟩

/-- Claim C2, failing input: a token signed with the correct secret whose
payload carries only an unexpired `exp` claim passes `jose.jwt.decode`, and
`JWTPayload.model_validate` then raises a `pydantic.ValidationError` — which
is not a `JWTError`, so it escapes `verify_jwt_token` instead of the
documented `None` return. -/
theorem C2_uncaught_validation_error :
    verify_jwt_token 7 0
      (.signed { sub := none, exp := some 1000, iat := none, type := none }
        (macSign 7 { sub := none, exp := some 1000, iat := none, type := none })) =
      .uncaught (.missingField "sub") := by
  rfl

/-- Claim C3: `get_session_by_token` on the token of a stored expired
session returns `None` and deletes the row; a second call with the same
token again returns `None` and leaves the table unchanged; a token matching
no session returns `None` without changing the table. -/
theorem C3_lazy_eviction (now : Timestamp) (store : List Session) (s : Session)
    (tok other : String)
    (hmem : s ∈ store) (htok : s.token = tok) (hexp : s.expires_at < now)
    (huniq : ∀ x ∈ store, x.token = tok → x = s)
    (hother : ∀ x ∈ store, x.token ≠ other) :
    get_session_by_token now store tok = (none, sessionsDelete store s.id) ∧
    get_session_by_token now (sessionsDelete store s.id) tok =
      (none, sessionsDelete store s.id) ∧
    get_session_by_token now store other = (none, store) := by
  have hfind : sessionsFindByToken store tok = some s := by
    apply find?_eq_some_of_mem_unique _ hmem (by simp [htok])
    intro b hb hpb
    exact huniq b hb (by simpa using hpb)
  refine ⟨?_, ?_, ?_⟩
  · rw [get_session_by_token, hfind]
    simp [Session.is_expired, hexp]
  · have hnone : sessionsFindByToken (sessionsDelete store s.id) tok = none := by
      rw [sessionsFindByToken, List.find?_eq_none]
      intro x hx
      rw [sessionsDelete, List.mem_filter] at hx
      simp only [decide_eq_true_eq] at hx ⊢
      intro hxtok
      exact hx.2 (congrArg Session.id (huniq x hx.1 hxtok))
    rw [get_session_by_token, hnone]
  · have hnone : sessionsFindByToken store other = none := by
      rw [sessionsFindByToken, List.find?_eq_none]
      intro x hx
      simpa using hother x hx
    rw [get_session_by_token, hnone]

/-- Claim C3 witness: a store holding one session with token "t" expired at
time 0, read at time 10 with tokens "t" and "u". -/
theorem C3_lazy_eviction_witness :
    get_session_by_token 10 [⟨1, 1, "t", 0, none, none⟩] "t" =
      (none, sessionsDelete [⟨1, 1, "t", 0, none, none⟩] 1) ∧
    get_session_by_token 10 (sessionsDelete [⟨1, 1, "t", 0, none, none⟩] 1) "t" =
      (none, sessionsDelete [⟨1, 1, "t", 0, none, none⟩] 1) ∧
    get_session_by_token 10 [⟨1, 1, "t", 0, none, none⟩] "u" =
      (none, [⟨1, 1, "t", 0, none, none⟩]) :=
  C3_lazy_eviction 10 [⟨1, 1, "t", 0, none, none⟩] ⟨1, 1, "t", 0, none, none⟩ "t" "u"
    (by decide) (by decide) (by decide) (by decide) (by decide)

/-- Claim C4: `refresh_session` on an existing session raises `AppException`
and leaves the table unchanged when the current expiry has already passed,
and otherwise updates the session so its expiry is `now + days` days. -/
theorem C4_refresh (now : Timestamp) (store : List Session) (s : Session)
    (days : Int) (hmem : s ∈ store) (huniq : ∀ x ∈ store, x.id = s.id → x = s) :
    (s.expires_at < now →
      refresh_session now store s.id days =
        (.error (.appException "Cannot refresh an expired session"), store)) ∧
    (now ≤ s.expires_at →
      refresh_session now store s.id days =
        (.ok { s with expires_at := now + days * 86400 },
         sessionsUpdateExpiry store s.id (now + days * 86400))) := by
  have hfind : sessionsGet store s.id = some s := by
    apply find?_eq_some_of_mem_unique _ hmem (by simp)
    intro b hb hpb
    exact huniq b hb (by simpa using hpb)
  constructor
  · intro h
    rw [refresh_session, hfind]
    simp [h]
  · intro h
    rw [refresh_session, hfind]
    simp [not_lt.mpr h]

/-- Claim C4 witness: a single session expiring at time 100: refreshing at
time 200 fails with `AppException` and leaves the store unchanged;
refreshing at time 50 for 30 days sets the expiry to `50 + 30·86400`. -/
theorem C4_refresh_witness :
    refresh_session 200 [⟨1, 1, "t", 100, none, none⟩] 1 30 =
      (.error (.appException "Cannot refresh an expired session"),
       [⟨1, 1, "t", 100, none, none⟩]) ∧
    refresh_session 50 [⟨1, 1, "t", 100, none, none⟩] 1 30 =
      (.ok ⟨1, 1, "t", 50 + 30 * 86400, none, none⟩,
       sessionsUpdateExpiry [⟨1, 1, "t", 100, none, none⟩] 1 (50 + 30 * 86400)) :=
  ⟨(C4_refresh 200 [⟨1, 1, "t", 100, none, none⟩] ⟨1, 1, "t", 100, none, none⟩ 30
      (by decide) (by decide)).1 (by decide),
   (C4_refresh 50 [⟨1, 1, "t", 100, none, none⟩] ⟨1, 1, "t", 100, none, none⟩ 30
      (by decide) (by decide)).2 (by decide)⟩

/-- Claim C5: redeeming an unexpired email-verification token whose owning
user is already verified returns success and leaves the state untouched (no
token deletion, no user update, no email sent), so a second call succeeds
identically. -/
theorem C5_verify_email_idempotent (now : Timestamp) (st : AuthState)
    (v : Verification) (u : User) (tok : String)
    (hv : v ∈ st.verifications) (hval : v.value = tok)
    (hid : v.identifier = "email_verification")
    (hexp : now ≤ v.expires_at)
    (hvuniq : ∀ w ∈ st.verifications,
      w.value = tok ∧ w.identifier = "email_verification" → w = v)
    (hu : u ∈ st.users) (huid : u.id = v.user_id) (hver : u.email_verified = true)
    (huuniq : ∀ w ∈ st.users, w.id = v.user_id → w = u) :
    verify_email now st tok none = (.ok .alreadyVerified, st) ∧
    verify_email now (verify_email now st tok none).2 tok none =
      (.ok .alreadyVerified, st) := by
  have hvfind : verificationsFind st tok "email_verification" = some v := by
    apply find?_eq_some_of_mem_unique _ hv (by simp [hval, hid])
    intro b hb hpb
    exact hvuniq b hb (by simpa using hpb)
  have hufind : usersGet st v.user_id = some u := by
    apply find?_eq_some_of_mem_unique _ hu (by simp [huid])
    intro b hb hpb
    exact huuniq b hb (by simpa using hpb)
  have h1 : verify_email now st tok none = (.ok .alreadyVerified, st) := by
    rw [verify_email, hvfind]
    simp [Verification.is_expired, not_lt.mpr hexp, hufind, hver]
  refine ⟨h1, ?_⟩
  rw [h1]
  exact h1

/-- Claim C5 witness: one verified user owning one unexpired
email-verification token; redeeming it twice at time 50 succeeds both times
without changing the state. -/
theorem C5_verify_email_idempotent_witness :
    verify_email 50
      ⟨[⟨1, "a", true⟩], [], [], [⟨1, 1, "email_verification", "tok", 100⟩], []⟩
      "tok" none =
      (.ok .alreadyVerified,
       ⟨[⟨1, "a", true⟩], [], [], [⟨1, 1, "email_verification", "tok", 100⟩], []⟩) ∧
    verify_email 50
      (verify_email 50
        ⟨[⟨1, "a", true⟩], [], [], [⟨1, 1, "email_verification", "tok", 100⟩], []⟩
        "tok" none).2 "tok" none =
      (.ok .alreadyVerified,
       ⟨[⟨1, "a", true⟩], [], [], [⟨1, 1, "email_verification", "tok", 100⟩], []⟩) :=
  C5_verify_email_idempotent 50
    ⟨[⟨1, "a", true⟩], [], [], [⟨1, 1, "email_verification", "tok", 100⟩], []⟩
    ⟨1, 1, "email_verification", "tok", 100⟩ ⟨1, "a", true⟩ "tok"
    (by decide) rfl rfl (by decide) (by decide) (by decide) rfl rfl (by decide)

/-- Claim C6: redeeming an expired stored email-verification token raises
`ValidationError` and the token row is not deleted; redeeming a value
matching no stored email-verification token raises `ValidationError`. -/
theorem C6_expired_or_missing_email_token (now : Timestamp) (st : AuthState)
    (v : Verification) (tok other : String)
    (hv : v ∈ st.verifications) (hval : v.value = tok)
    (hid : v.identifier = "email_verification") (hexp : v.expires_at < now)
    (hvuniq : ∀ w ∈ st.verifications,
      w.value = tok ∧ w.identifier = "email_verification" → w = v)
    (hother : ∀ w ∈ st.verifications,
      ¬(w.value = other ∧ w.identifier = "email_verification")) :
    verify_email now st tok none =
      (.error (.validationError "Verification token has expired"), st) ∧
    v ∈ (verify_email now st tok none).2.verifications ∧
    verify_email now st other none =
      (.error (.validationError "Invalid or expired verification token"), st) := by
  have hvfind : verificationsFind st tok "email_verification" = some v := by
    apply find?_eq_some_of_mem_unique _ hv (by simp [hval, hid])
    intro b hb hpb
    exact hvuniq b hb (by simpa using hpb)
  have h1 : verify_email now st tok none =
      (.error (.validationError "Verification token has expired"), st) := by
    rw [verify_email, hvfind]
    simp [Verification.is_expired, hexp]
  refine ⟨h1, ?_, ?_⟩
  · rw [h1]
    exact hv
  · have hnone : verificationsFind st other "email_verification" = none := by
      rw [verificationsFind, List.find?_eq_none]
      intro x hx
      simpa using hother x hx
    rw [verify_email, hnone]

/-- Claim C6 witness: a token expired at time 10 redeemed at time 50, and an
unknown token value. -/
theorem C6_expired_or_missing_email_token_witness :
    verify_email 50 ⟨[], [], [], [⟨1, 1, "email_verification", "tok", 10⟩], []⟩
      "tok" none =
      (.error (.validationError "Verification token has expired"),
       ⟨[], [], [], [⟨1, 1, "email_verification", "tok", 10⟩], []⟩) ∧
    (⟨1, 1, "email_verification", "tok", 10⟩ : Verification) ∈
      (verify_email 50 ⟨[], [], [], [⟨1, 1, "email_verification", "tok", 10⟩], []⟩
        "tok" none).2.verifications ∧
    verify_email 50 ⟨[], [], [], [⟨1, 1, "email_verification", "tok", 10⟩], []⟩
      "zzz" none =
      (.error (.validationError "Invalid or expired verification token"),
       ⟨[], [], [], [⟨1, 1, "email_verification", "tok", 10⟩], []⟩) :=
  C6_expired_or_missing_email_token 50
    ⟨[], [], [], [⟨1, 1, "email_verification", "tok", 10⟩], []⟩
    ⟨1, 1, "email_verification", "tok", 10⟩ "tok" "zzz"
    (by decide) rfl rfl (by decide) (by decide) (by decide)

/-- Claim C7: redeeming an expired stored password-reset token raises
`ValidationError` and performs no password update: the credential table is
left unchanged. -/
theorem C7_expired_reset_token (now : Timestamp) (st : AuthState)
    (v : Verification) (tok new_password : String)
    (hv : v ∈ st.verifications) (hval : v.value = tok)
    (hid : v.identifier = "password_reset") (hexp : v.expires_at < now)
    (hvuniq : ∀ w ∈ st.verifications,
      w.value = tok ∧ w.identifier = "password_reset" → w = v) :
    reset_password now st tok new_password =
      (.error (.validationError "Password reset token has expired"), st) ∧
    (reset_password now st tok new_password).2.accounts = st.accounts := by
  have hvfind : verificationsFind st tok "password_reset" = some v := by
    apply find?_eq_some_of_mem_unique _ hv (by simp [hval, hid])
    intro b hb hpb
    exact hvuniq b hb (by simpa using hpb)
  have h1 : reset_password now st tok new_password =
      (.error (.validationError "Password reset token has expired"), st) := by
    rw [reset_password, hvfind]
    simp [Verification.is_expired, hexp]
  exact ⟨h1, by rw [h1]⟩

/-- Claim C7 witness: a password-reset token expired at time 10, redeemed at
time 50 against a state holding one credential account, fails and leaves the
account table unchanged. -/
theorem C7_expired_reset_token_witness :
    reset_password 50
      ⟨[⟨1, "a", false⟩], [⟨1, 1, "a", hashPassword "old"⟩], [],
        [⟨1, 1, "password_reset", "tok", 10⟩], []⟩ "tok" "new" =
      (.error (.validationError "Password reset token has expired"),
       ⟨[⟨1, "a", false⟩], [⟨1, 1, "a", hashPassword "old"⟩], [],
         [⟨1, 1, "password_reset", "tok", 10⟩], []⟩) ∧
    (reset_password 50
      ⟨[⟨1, "a", false⟩], [⟨1, 1, "a", hashPassword "old"⟩], [],
        [⟨1, 1, "password_reset", "tok", 10⟩], []⟩ "tok" "new").2.accounts =
      [⟨1, 1, "a", hashPassword "old"⟩] :=
  C7_expired_reset_token 50
    ⟨[⟨1, "a", false⟩], [⟨1, 1, "a", hashPassword "old"⟩], [],
      [⟨1, 1, "password_reset", "tok", 10⟩], []⟩
    ⟨1, 1, "password_reset", "tok", 10⟩ "tok" "new"
    (by decide) rfl rfl (by decide) (by decide)

/-- Claim C8: when credential verification fails, `login` raises
`AuthenticationError` and returns the state unchanged (in particular no
session row is created and no token issued); verification fails both for an
email matching no account and for a stored account whose hash does not match
the supplied password. -/
theorem C8_login_failure (secret : Nat) (now : Timestamp) (st : AuthState)
    (email password : String) (ip ua : Option String) (fid : Nat) (ftok : String) :
    (verify_credential st email password = none →
      login secret now st email password ip ua fid ftok =
        (.error (.authenticationError "Invalid email or password"), st)) ∧
    ((∀ a ∈ st.accounts, a.email ≠ email) →
      verify_credential st email password = none) ∧
    (∀ a : Account, get_account_by_email st email = some a →
      a.password_hash ≠ hashPassword password →
      verify_credential st email password = none) := by
  refine ⟨?_, ?_, ?_⟩
  · intro h
    rw [login, h]
  · intro h
    have hnone : get_account_by_email st email = none := by
      rw [get_account_by_email, List.find?_eq_none]
      intro x hx
      simpa using h x hx
    rw [verify_credential, hnone]
  · intro a ha hne
    rw [verify_credential, ha]
    simp [hne]

/-- Claim C8 witness: a state with one account for "a@x" hashed from
"right"; logging in with password "wrong" fails credential verification,
raises `AuthenticationError`, and leaves the state (so the session table)
unchanged. -/
theorem C8_login_failure_witness :
    verify_credential ⟨[], [⟨1, 1, "a@x", hashPassword "right"⟩], [], [], []⟩
      "a@x" "wrong" = none ∧
    login 3 0 ⟨[], [⟨1, 1, "a@x", hashPassword "right"⟩], [], [], []⟩
      "a@x" "wrong" none none 1 "s" =
      (.error (.authenticationError "Invalid email or password"),
       ⟨[], [⟨1, 1, "a@x", hashPassword "right"⟩], [], [], []⟩) :=
  have hv : verify_credential ⟨[], [⟨1, 1, "a@x", hashPassword "right"⟩], [], [], []⟩
      "a@x" "wrong" = none :=
    (C8_login_failure 3 0 ⟨[], [⟨1, 1, "a@x", hashPassword "right"⟩], [], [], []⟩
      "a@x" "wrong" none none 1 "s").2.2
      ⟨1, 1, "a@x", hashPassword "right"⟩ rfl (by decide)
  ⟨hv,
   (C8_login_failure 3 0 ⟨[], [⟨1, 1, "a@x", hashPassword "right"⟩], [], [], []⟩
      "a@x" "wrong" none none 1 "s").1 hv⟩

/-- Claim C9, boundary counterexample: a session whose `expires_at` is 0
checked at time 0 is still valid (`is_expired` is false) although
`now < expires_at` fails, so "valid iff current time < expires_at" is false
as stated. -/
theorem C9_boundary_counterexample :
    ¬((Session.is_expired ⟨0, 0, "t", 0, none, none⟩ 0 = false) ↔
      (0 : Timestamp) < (Session.mk 0 0 "t" 0 none none).expires_at) := by
  decide

/-- Claim C9 (amended): a session is valid (`is_expired` false) iff the
current time is at most its `expires_at`; in particular at the boundary
instant where the current time equals `expires_at` the session is still
valid. -/
theorem C9_validity (s : Session) (now : Timestamp) :
    s.is_expired now = false ↔ now ≤ s.expires_at := by
  rw [Session.is_expired]
  simp [not_lt]

/-- Claim C9 witness: a session expiring at time 5 is still valid at time 5. -/
theorem C9_validity_witness :
    Session.is_expired ⟨1, 1, "t", 5, none, none⟩ 5 = false :=
  (C9_validity ⟨1, 1, "t", 5, none, none⟩ 5).mpr (by decide)

/-- Claim C10, counterexample: with both arguments provided as
`expires_hours = 0` and `expires_minutes = 5`, `expires_hours` does NOT take
precedence: Python truthiness skips the zero hours and applies the minutes,
yielding `expires_at = now + 300` rather than `now`. -/
theorem C10_hours_zero_counterexample :
    (create_verification_token 0 1 "email_verification" 2 "tok"
      (some 0) (some 5)).expires_at = 300 ∧
    (create_verification_token 0 1 "email_verification" 2 "tok"
      (some 0) none).expires_at = 0 :=
  ⟨rfl, rfl⟩

/-- Claim C10 (amended): when neither `expires_hours` nor `expires_minutes`
is truthy (absent or zero), the token's `expires_at` equals its creation
time, so it is expired at every strictly later check; a nonzero
`expires_hours` takes precedence and `expires_minutes` is then ignored; when
`expires_hours` is absent or zero, a nonzero `expires_minutes` applies. -/
theorem C10_expiry_rules (now : Timestamp) (uid : Nat) (idf : String) (fid : Nat)
    (val : String) (h m : Option Int) :
    (pyTruthy h = false → pyTruthy m = false →
      (create_verification_token now uid idf fid val h m).expires_at = now ∧
      ∀ t : Timestamp, now < t →
        (create_verification_token now uid idf fid val h m).is_expired t = true) ∧
    (∀ hv : Int, h = some hv → hv ≠ 0 →
      (create_verification_token now uid idf fid val h m).expires_at =
        now + hv * 3600) ∧
    (pyTruthy h = false → ∀ mv : Int, m = some mv → mv ≠ 0 →
      (create_verification_token now uid idf fid val h m).expires_at =
        now + mv * 60) := by
  refine ⟨?_, ?_, ?_⟩
  · intro hh hm
    have he : (create_verification_token now uid idf fid val h m).expires_at = now := by
      simp [create_verification_token, hh, hm]
    refine ⟨he, ?_⟩
    intro t ht
    simp [Verification.is_expired, he]
    exact ht
  · intro hv hhv hnz
    subst hhv
    have htr : pyTruthy (some hv) = true := by
      simp [pyTruthy, hnz]
    simp [create_verification_token, htr]
  · intro hh mv hmv hnz
    subst hmv
    have htr : pyTruthy (some mv) = true := by
      simp [pyTruthy, hnz]
    simp [create_verification_token, hh, htr]

/-- Claim C10 witness: absent arguments give an instantly expired token
(expired already at time 1); hours 2 with minutes 5 gives the hours shift;
absent hours with minutes 5 gives the minutes shift. -/
theorem C10_expiry_rules_witness :
    (create_verification_token 0 1 "x" 2 "v" none none).expires_at = 0 ∧
    (create_verification_token 0 1 "x" 2 "v" none none).is_expired 1 = true ∧
    (create_verification_token 0 1 "x" 2 "v" (some 2) (some 5)).expires_at =
      0 + 2 * 3600 ∧
    (create_verification_token 0 1 "x" 2 "v" none (some 5)).expires_at =
      0 + 5 * 60 :=
  ⟨((C10_expiry_rules 0 1 "x" 2 "v" none none).1 (by decide) (by decide)).1,
   ((C10_expiry_rules 0 1 "x" 2 "v" none none).1 (by decide) (by decide)).2 1
     (by decide),
   (C10_expiry_rules 0 1 "x" 2 "v" (some 2) (some 5)).2.1 2 rfl (by decide),
   (C10_expiry_rules 0 1 "x" 2 "v" none (some 5)).2.2 (by decide) 5 rfl (by decide)⟩

end AuthCore
